import Mathlib

/-!
Verification development for the `nostr-data-pipeline` repository.

The definitions below are shallow embeddings of the Python source:
* `src/nostr_pipeline/transformers/event_processor.py`
* `src/nostr_pipeline/transformers/metrics_calculator.py`
* `src/nostr_pipeline/extractors/relay_client.py`
* `src/nostr_pipeline/pipeline.py`
* `src/nostr_pipeline/analytics/aggregator.py`
* `src/nostr_pipeline/loaders/event_loader.py`

Machine integers are modelled as `Nat`/`Int`, Python floats as `ℚ` where the
source only performs exact decimal arithmetic at the inputs evaluated, and as
`ℝ` for the transcendental scoring formulas.  Fallible code returns `Option`.
-/

namespace NostrPipeline

/-! ### Python primitives used by the embedding -/

/-- Python `int()` applied to a rational value: truncation toward zero. -/
def pyInt (q : ℚ) : ℤ := if 0 ≤ q then ⌊q⌋ else ⌈q⌉

/-- Python `str.lower()`; the strings reaching it here are ASCII, for which
`Char.toLower` agrees with Python. -/
def pyLower (s : List Char) : List Char := s.map Char.toLower

/-- Numeric value of a digit string (most significant digit first). -/
def digitsVal (s : List Char) : ℕ :=
  s.foldl (fun a c => 10 * a + (c.toNat - '0'.toNat)) 0

/-- Python `float(s)` as used by `_parse_bolt11_amount`, modelled on the
digit-form amount strings that the bolt11 grammar and the claims exercise:
a non-empty all-digit string parses exactly to its value, anything else is
mapped to the `ValueError` branch (`none`).  (Python `float` also accepts
decimal/exponent forms; those never arise at the inputs evaluated here, and
the digit values involved are small enough that binary floating point
represents them exactly.) -/
def parsePyFloat (s : List Char) : Option ℚ :=
  if s ≠ [] ∧ s.all Char.isDigit then some (digitsVal s : ℚ) else none

/-! ### `EventProcessor._parse_bolt11_amount`
(event_processor.py lines 262-297). -/

/-- The multiplier table of `_parse_bolt11_amount` (lines 281-286).  The float
constants `0.1` and `0.0001` are modelled by their decimal values; the inputs
evaluated below never reach those branches, so the double-rounding of the
literals is immaterial here. -/
def bolt11Multiplier : Char → Option ℚ
  | 'm' => some 100000
  | 'u' => some 100
  | 'n' => some (1 / 10)
  | 'p' => some (1 / 10000)
  | _ => none

/-- `EventProcessor._parse_bolt11_amount` (lines 262-297): after lowercasing
and checking the `lnbc` prefix, the code takes `bolt11_lower[4:].split("1")[0]`
— everything up to the FIRST `'1'` — as the amount string, reads its last
character as the multiplier, parses the rest with `float`, multiplies and
truncates with `int()`.  `ValueError`/`IndexError` are caught and yield
`None`. -/
def parseBolt11Amount (bolt11 : Option String) : Option ℤ :=
  match bolt11 with
  | none => none
  | some s =>
    -- `if not bolt11`: the empty string is also falsy
    if s.toList = [] then none
    else
      let low := pyLower s.toList
      if ¬ ("lnbc".toList.isPrefixOf low) then none
      else
        let amountStr := (low.drop 4).takeWhile (fun c => c ≠ '1')
        if amountStr = [] then none
        else
          match amountStr.getLast? with
          | none => none
          | some mc =>
            match bolt11Multiplier mc with
            | some mult =>
              match parsePyFloat amountStr.dropLast with
              | some a => some (pyInt (a * mult))
              | none => none
            | none =>
              -- no recognized multiplier: amount is in whole bitcoin
              match parsePyFloat amountStr with
              | some a => some (pyInt (a * 100000000000))
              | none => none

/-! ### `EventProcessor._process_zap` and the zap branch of
`NostrPipeline._process_batch` (event_processor.py lines 164-208,
pipeline.py lines 195-258). -/

/-- The two values `_process_zap` reads out of a successfully JSON-parsed
`description` tag: `description.get("pubkey")` and `description.get("content")`
(event_processor.py lines 195-197).  A parsed empty object is falsy in Python
and skips those reads, but both reads would return `None` on it anyway, so it
is represented by `⟨none, none⟩` with identical outcome. -/
structure ZapDescription where
  pubkey : Option String
  content : Option String

/-- The processed zap record (event_processor.py lines 199-208), minus the
envelope fields `_process_batch` splices in later. -/
structure ZapData where
  target_event_id : Option String
  target_pubkey : Option String
  sender_pubkey : Option String
  amount_msats : Option ℤ
  amount_sats : ℤ
  comment : Option String
  bolt11 : Option String
  preimage : Option String

/-- Python truthiness of an optional integer: `None` and `0` are both falsy. -/
def pyTruthyInt : Option ℤ → Bool
  | none => false
  | some a => a != 0

/-- The tag loop of `_process_zap` (lines 173-187) keeps the value of the
LAST tag with the given key: each match overwrites the variable. -/
def lastTagValue (key : String) (tags : List (List String)) : Option String :=
  tags.foldl
    (fun acc t => if 2 ≤ t.length ∧ t.headD "" = key then some (t.getD 1 "") else acc)
    none

/-- The `description` variable after the tag loop: the last `description` tag
whose body parses as JSON (lines 175-179; a `json.JSONDecodeError` is
swallowed and leaves the previous value).  The JSON decoder lives outside the
embedded fragment, so it is a parameter; `none` models a decode error. -/
def lastParsedDescription (jsonLoads : String → Option ZapDescription)
    (tags : List (List String)) : Option ZapDescription :=
  tags.foldl
    (fun acc t =>
      if 2 ≤ t.length ∧ t.headD "" = "description" then
        match jsonLoads (t.getD 1 "") with
        | some d => some d
        | none => acc
      else acc)
    none

/-- `EventProcessor._process_zap` (lines 164-208).  `amount_sats` is
`amount_msats // 1000 if amount_msats else 0` (line 204): Python truthiness
turns both an unknown (`None`) and a zero amount into 0 in that derived
field, while `amount_msats` itself keeps the parse result unchanged. -/
def processZap (jsonLoads : String → Option ZapDescription)
    (tags : List (List String)) : ZapData :=
  let bolt11 := lastTagValue "bolt11" tags
  let description := lastParsedDescription jsonLoads tags
  let amount_msats := parseBolt11Amount bolt11
  { target_event_id := lastTagValue "e" tags
    target_pubkey := lastTagValue "p" tags
    sender_pubkey := match description with | some d => d.pubkey | none => none
    amount_msats := amount_msats
    amount_sats := match amount_msats with
      | some a => if a = 0 then 0 else Int.fdiv a 1000
      | none => 0
    comment := match description with | some d => d.content | none => none
    bolt11 := bolt11
    preimage := lastTagValue "preimage" tags }

/-- The persistence decision of the zap branch in `_process_batch`
(pipeline.py line 240): `if zap_data and zap_data["amount_msats"]:`.  The
`zap_data` dict is always a non-empty dict (truthy), so the record is handed
to `save_zap` iff `amount_msats` is truthy: neither `None` nor `0`. -/
def zapPersisted (zd : ZapData) : Bool := pyTruthyInt zd.amount_msats

/-! ### In-batch deduplication of `NostrPipeline._process_batch`
(pipeline.py lines 202-211). -/

/-- The dedup pass of `_process_batch`: a `seen_ids` set and one sweep in
batch order, keeping the first entry per id and dropping entries whose
`event.get("id")` is falsy (`None` or the empty string):
`if event_id and event_id not in seen_ids`.  Each batch entry is its id plus
an opaque payload `α` (the raw event dict and the source relay URL).  The
flush loop then runs its per-message persistence body exactly once per
surviving entry (lines 213-258). -/
def dedupBatchAux {α : Type} (seen : List String) :
    List (Option String × α) → List (Option String × α)
  | [] => []
  | e :: rest =>
    match e.1 with
    | some i =>
      if i ≠ "" ∧ i ∉ seen then e :: dedupBatchAux (i :: seen) rest
      else dedupBatchAux seen rest
    | none => dedupBatchAux seen rest

/-- `unique_batch` as computed by `_process_batch` (lines 203-209). -/
def dedupBatch {α : Type} (batch : List (Option String × α)) :
    List (Option String × α) :=
  dedupBatchAux [] batch

/-! ### `MetricsAggregator.run_aggregation`
(aggregator.py lines 33-62). -/

/-- A storage session: rows already durably committed, plus the uncommitted
writes staged in the current transaction.  `W` is the row type. -/
structure DbSession (W : Type) where
  committed : List W
  pending : List W
  deriving DecidableEq, Repr

/-- `session.commit()` (aggregator.py line 54): staged writes become durable. -/
def commitSession {W : Type} (s : DbSession W) : DbSession W :=
  { committed := s.committed ++ s.pending, pending := [] }

/-- `session.rollback()` (aggregator.py line 58): staged writes are discarded. -/
def rollbackSession {W : Type} (s : DbSession W) : DbSession W :=
  { committed := s.committed, pending := [] }

/-- One aggregation pass over the session: it either returns the new session
state or raises, in which case the exception value `E` is paired with the
session state at the moment of the raise. -/
def AggPass (E W : Type) : Type :=
  DbSession W → Except (E × DbSession W) (DbSession W)

/-- A pass that only stages writes: it never commits or rolls back, so the
committed rows are unchanged whether it returns or raises.  The three passes
called by `run_aggregation` — `_aggregate_content_metrics`,
`_aggregate_trending_topics`, `_compute_network_stats` (aggregator.py lines
64-376) — only `session.query`/`session.add`/`setattr` and satisfy this. -/
def StagesOnly {E W : Type} (p : AggPass E W) : Prop :=
  (∀ s s', p s = Except.ok s' → s'.committed = s.committed) ∧
  (∀ s e s', p s = Except.error (e, s') → s'.committed = s.committed)

/-- `MetricsAggregator.run_aggregation` (aggregator.py lines 33-62): run the
three passes in order inside a `try`; `session.commit()` only after the third
returns; on any exception `session.rollback()` and `raise`.  The result is
the final session state plus the re-raised exception, if any. -/
def runAggregation {E W : Type} (p1 p2 p3 : AggPass E W) (s0 : DbSession W) :
    DbSession W × Option E :=
  match p1 s0 with
  | Except.error (e, s) => (rollbackSession s, some e)
  | Except.ok s1 =>
    match p2 s1 with
    | Except.error (e, s) => (rollbackSession s, some e)
    | Except.ok s2 =>
      match p3 s2 with
      | Except.error (e, s) => (rollbackSession s, some e)
      | Except.ok s3 => (commitSession s3, none)

/-- A concrete pass staging one write, used to witness the transactional
property. -/
def passStageOne : AggPass Unit ℕ :=
  fun s => Except.ok { committed := s.committed, pending := s.pending ++ [1] }

/-- A concrete pass that stages one write and then raises. -/
def passRaise : AggPass Unit ℕ :=
  fun s => Except.error ((), { committed := s.committed, pending := s.pending ++ [2] })

/-- A concrete pass that does nothing. -/
def passNoop : AggPass Unit ℕ := fun s => Except.ok s

/-! ### Scoring formulas
(metrics_calculator.py lines 17-92). -/

/-- Python `round(x, 2)` on a real value.  Python rounds ties to even while
`round` here rounds ties up; no statement below sits on a tie. -/
noncomputable def round2 (x : ℝ) : ℝ := ((round (x * 100) : ℤ) : ℝ) / 100

/-- The weighted engagement sum of `calculate_virality_score`
(metrics_calculator.py lines 34-48). -/
noncomputable def engagementScore
    (zap_count zap_total_sats reply_count repost_count reaction_count : ℝ) : ℝ :=
  zap_count * 3.0 + zap_total_sats * 0.001 + reply_count * 2.0
    + repost_count * 2.5 + reaction_count * 1.0

/-- The decay factor (metrics_calculator.py lines 50-54):
`math.exp(-0.1155 * age_hours)` when `age_hours > 0` (the source writes the
constant 0.1155 as its approximation of ln(2)/6), factor 1.0 otherwise. -/
noncomputable def timeDecay (age_hours : ℝ) : ℝ :=
  if 0 < age_hours then Real.exp (-0.1155 * age_hours) else 1

/-- `MetricsCalculator.calculate_virality_score` (lines 17-58). -/
noncomputable def calculate_virality_score
    (zap_count zap_total_sats reply_count repost_count reaction_count age_hours : ℝ) : ℝ :=
  round2 (engagementScore zap_count zap_total_sats reply_count repost_count reaction_count
    * timeDecay age_hours)

/-- `MetricsCalculator.calculate_trend_score` (lines 60-92): only
`window_hours == 0` is replaced by 1 (line 77); `math.log1p x = log (1 + x)`. -/
noncomputable def calculate_trend_score
    (mention_count unique_authors total_zaps window_hours : ℤ) : ℝ :=
  let w : ℤ := if window_hours = 0 then 1 else window_hours
  round2 ((mention_count : ℝ) / (w : ℝ) * Real.log (1 + (unique_authors : ℝ))
    * (1 + Real.log (1 + (total_zaps : ℝ))))

/-- Modelled from the spec words of C7, for comparison with the code's
`calculate_trend_score`: the same formula but with EVERY `window_hours ≤ 0`
(zero or negative) replaced by 1 before dividing. -/
noncomputable def trendScoreSpecC7
    (mention_count unique_authors total_zaps window_hours : ℤ) : ℝ :=
  let w : ℤ := if window_hours ≤ 0 then 1 else window_hours
  round2 ((mention_count : ℝ) / (w : ℝ) * Real.log (1 + (unique_authors : ℝ))
    * (1 + Real.log (1 + (total_zaps : ℝ))))

/-! ### `RelayClient.run_with_reconnect` backoff
(relay_client.py lines 62-63, 83, 209-229). -/

/-- The value of `self.reconnect_delay` after `k` consecutive `connect()`
failures, starting from the floor of 1 second that `__init__` (line 62) sets
and every successful `connect()` restores (line 83).  On each failure the loop
sleeps the current delay and then doubles it, capped at
`max_reconnect_delay = 60` (lines 213-214, 228-229). -/
def reconnectDelayAfter : Nat → Nat
  | 0 => 1
  | k + 1 => min (reconnectDelayAfter k * 2) 60

/-- The duration of the `asyncio.sleep` executed upon the `N`-th consecutive
failure, i.e. before connect attempt `N + 1`: the loop sleeps the delay it
accumulated from the previous `N - 1` failures (line 213) and only then
doubles it (line 214). -/
def sleepBeforeNextAttempt (failures : Nat) : Nat :=
  reconnectDelayAfter (failures - 1)

/-! ### `EventProcessor._extract_reply_to`
(event_processor.py lines 250-260). -/

/-- A tag the loop treats as a reference tag: `len(tag) >= 2 and tag[0] == "e"`. -/
def isETag (t : List String) : Bool :=
  2 ≤ t.length && t.headD "" = "e"

/-- A reference tag carrying the `"reply"` marker:
`len(tag) >= 4 and tag[3] == "reply"` inside the `isETag` branch. -/
def isReplyTag (t : List String) : Bool :=
  isETag t && 4 ≤ t.length && t.getD 3 "" = "reply"

/-- A reference tag carrying any (non-empty) marker in position 3. -/
def hasMarker (t : List String) : Bool :=
  4 ≤ t.length && t.getD 3 "" ≠ ""

/-- Loop body of `_extract_reply_to`, with `fallback` playing the role of the
`reply_event` variable: a `"reply"`-marked reference tag returns immediately,
any other reference tag overwrites the fallback, and the fallback is returned
when the list is exhausted (lines 253-260). -/
def extractReplyToAux (fallback : Option String) : List (List String) → Option String
  | [] => fallback
  | t :: rest =>
    if isETag t then
      if isReplyTag t then some (t.getD 1 "")
      else extractReplyToAux (some (t.getD 1 "")) rest
    else extractReplyToAux fallback rest

/-- `EventProcessor._extract_reply_to` (lines 250-260). -/
def extractReplyTo (tags : List (List String)) : Option String :=
  extractReplyToAux none tags

/-- The target of the last reference tag of a tag list, if any. -/
def lastETagTarget (tags : List (List String)) : Option String :=
  ((tags.filter isETag).getLast?).map (fun t => t.getD 1 "")

/-! ### `EventLoader.save_user_profile`
(event_loader.py lines 56-83).  The stored `UserProfile` row and the incoming
`profile_data` dict built by `pipeline.py` lines 227-235 from
`_process_metadata` (event_processor.py lines 71-88). -/

/-- A stored `UserProfile` row.  Nullable text columns are `Option String`;
the JSON blob `raw_metadata` is kept as its serialized form, which is enough
for the update semantics verified here.  Timestamps are abstract `Nat`s. -/
structure UserProfile where
  pubkey : String
  name : Option String
  display_name : Option String
  about : Option String
  picture : Option String
  nip05 : Option String
  lud06 : Option String
  lud16 : Option String
  banner : Option String
  website : Option String
  raw_metadata : Option String
  first_seen : Nat
  last_updated : Nat
  deriving DecidableEq, Repr

/-- The non-`pubkey` entries of the incoming `profile_data` dict
(pipeline.py lines 231-234: `{"pubkey": …, **metadata}` with `metadata` the
dict of event_processor.py lines 75-86, whose values may be `None`). -/
structure ProfileUpdate where
  name : Option String
  display_name : Option String
  about : Option String
  picture : Option String
  nip05 : Option String
  lud06 : Option String
  lud16 : Option String
  banner : Option String
  website : Option String
  raw_metadata : Option String
  deriving DecidableEq, Repr

/-- One field of the update loop (event_loader.py lines 66-68):
`if key != "pubkey" and value is not None: setattr(existing, key, value)`. -/
def updField (old incoming : Option String) : Option String :=
  match incoming with
  | some v => some v
  | none => old

/-- `EventLoader.save_user_profile` on the branch where a profile for the
pubkey already exists (event_loader.py lines 64-69): every non-`None`
incoming value overwrites the stored field, `pubkey` is skipped by the
`key != "pubkey"` guard, and `last_updated` is set to the current time. -/
def updateExistingProfile (existing : UserProfile) (incoming : ProfileUpdate)
    (now : Nat) : UserProfile :=
  { pubkey := existing.pubkey
    name := updField existing.name incoming.name
    display_name := updField existing.display_name incoming.display_name
    about := updField existing.about incoming.about
    picture := updField existing.picture incoming.picture
    nip05 := updField existing.nip05 incoming.nip05
    lud06 := updField existing.lud06 incoming.lud06
    lud16 := updField existing.lud16 incoming.lud16
    banner := updField existing.banner incoming.banner
    website := updField existing.website incoming.website
    raw_metadata := updField existing.raw_metadata incoming.raw_metadata
    first_seen := existing.first_seen
    last_updated := now }

/-! ### `MetricsCalculator.calculate_zap_stats`
(metrics_calculator.py lines 252-287). -/

/-- Python `round(q, 2)` on a rational value.  Python rounds ties to even
while `round` here rounds ties up; no statement below depends on a tie. -/
def pyRound2 (q : ℚ) : ℚ := (round (q * 100) : ℤ) / 100

/-- The statistics dict returned by `calculate_zap_stats`; one field per key. -/
structure ZapStats where
  total : ℤ
  count : ℕ
  mean : ℚ
  median : ℤ
  min : ℤ
  max : ℤ
  p95 : ℤ
  deriving DecidableEq, Repr

/-- `p95_index = int(count * 0.95)` (line 276).  The float literal `0.95` is
modelled by its decimal value 19/20; the claims settled here do not exercise
a count where the binary double-rounding of `0.95` would shift the index. -/
def p95Index (count : ℕ) : ℕ := 19 * count / 20

/-- `MetricsCalculator.calculate_zap_stats` (lines 252-287): the empty input
returns the all-zero dict (lines 257-266); otherwise the list is sorted and
total, count, two-decimal mean, lower median, min, max and 95th percentile
are taken from it (lines 268-287). -/
def calculate_zap_stats (zap_amounts : List ℤ) : ZapStats :=
  if zap_amounts = [] then
    { total := 0, count := 0, mean := 0, median := 0, min := 0, max := 0, p95 := 0 }
  else
    let sorted := zap_amounts.insertionSort (· ≤ ·)
    let count := sorted.length
    let total := sorted.sum
    let mean := pyRound2 ((total : ℚ) / (count : ℚ))
    let median := sorted.getD (count / 2) 0
    let minZap := sorted.getD 0 0
    let maxZap := (sorted.getLast?).getD 0
    let p95 := if p95Index count < count then sorted.getD (p95Index count) 0 else maxZap
    { total := total, count := count, mean := mean, median := median,
      min := minZap, max := maxZap, p95 := p95 }

end NostrPipeline

namespace NostrPipeline

/-- C1: the claim (and the repository's own test
`tests/test_event_processor.py::test_parse_bolt11_amount`) requires
`lnbc20u…` to parse to 2,000,000 millisatoshis, `lnbc1m…` to 100,000,000 and
`lnbc1000n…` to 100,000.  The code instead returns 2000 for the first (its
multiplier table is denominated in satoshis, one thousandth of the documented
unit) and `None` for the other two (splitting on the separator character `'1'`
destroys any amount whose digits contain a `1`).  This theorem evaluates the
embedded code at the test's own inputs, exhibiting the divergence. -/
theorem c1_parse_bolt11_code_bug :
    parseBolt11Amount (some "lnbc20u1pjexampledata") = some 2000 ∧
    parseBolt11Amount (some "lnbc1m1pjexampledata") = none ∧
    parseBolt11Amount (some "lnbc1000n1pjexampledata") = none ∧
    (2000 : ℤ) ≠ 2000000 := by
  refine ⟨?_, by rfl, by rfl, by decide⟩
  have h1 : parseBolt11Amount (some "lnbc20u1pjexampledata")
      = some (pyInt ((digitsVal ['2', '0'] : ℚ) * 100)) := rfl
  have h2 : digitsVal ['2', '0'] = 20 := rfl
  rw [h1, h2]
  norm_num [pyInt]

/-! ### C3: reconnect backoff -/

/-- The delay variable after `k` consecutive failures is the doubling sequence
from the 1-second floor, capped at 60. -/
theorem reconnectDelayAfter_eq (k : ℕ) : reconnectDelayAfter k = min (2 ^ k) 60 := by
  induction k with
  | zero => rfl
  | succ k ih =>
    rw [reconnectDelayAfter, ih, pow_succ]
    omega

/-- C3, counterexample: the claim puts the sleep before attempt `N + 1` at
`min (floor × 2 ^ N, ceiling)`; after the very first failure (`N = 1`) the
code sleeps the un-doubled floor of 1 second, not `min (1 × 2 ^ 1, 60) = 2`
— doubling happens after the sleep (relay_client.py lines 213-214). -/
theorem c3_backoff_counterexample :
    sleepBeforeNextAttempt 1 = 1 ∧ min (1 * 2 ^ 1) 60 = 2 ∧ (1 : ℕ) ≠ 2 := by
  refine ⟨rfl, by decide, by decide⟩

/-- C3, amended: after `N ≥ 1` consecutive connect failures (counted since the
last successful connect, which resets the delay to its 1-second floor), the
sleep before attempt `N + 1` equals `min (floor × 2 ^ (N - 1), ceiling)` with
floor = 1s and ceiling = 60s: the exponent is `N - 1`, not `N`. -/
theorem c3_backoff_amended (N : ℕ) (hN : 1 ≤ N) :
    sleepBeforeNextAttempt N = min (1 * 2 ^ (N - 1)) 60 := by
  rw [sleepBeforeNextAttempt, reconnectDelayAfter_eq, one_mul]

/-- Witness for C3 at `N = 7`: the 7th failure sleeps `min (2 ^ 6, 60) = 60`. -/
theorem c3_backoff_amended_witness :
    1 ≤ 7 ∧ sleepBeforeNextAttempt 7 = min (1 * 2 ^ (7 - 1)) 60 :=
  ⟨by decide, c3_backoff_amended 7 (by decide)⟩

/-! ### C8: reply-target extraction -/

/-- A `"reply"`-marked tag is in particular a reference tag. -/
theorem isETag_of_isReplyTag {t : List String} (h : isReplyTag t = true) :
    isETag t = true := by
  simp only [isReplyTag, Bool.and_eq_true] at h
  exact h.1.1

/-- A reference tag without a marker is not `"reply"`-marked. -/
theorem isReplyTag_eq_false_of_no_marker {t : List String} (he : isETag t = true)
    (hm : hasMarker t = false) : isReplyTag t = false := by
  simp only [hasMarker, Bool.and_eq_false_iff, decide_eq_false_iff_not, not_not,
    Bool.not_eq_true] at hm
  simp only [isReplyTag, he, Bool.true_and, Bool.and_eq_false_iff,
    decide_eq_false_iff_not]
  rcases hm with hm | hm
  · left
    exact hm
  · right
    intro hr
    rw [hm] at hr
    exact absurd hr (by decide)

/-- The loop returns the target of the first `"reply"`-marked tag, whatever
the accumulated fallback. -/
theorem extractReplyToAux_reply (l₁ : List (List String)) :
    ∀ (fallback : Option String) (t : List String) (l₂ : List (List String)),
      (∀ u ∈ l₁, isReplyTag u = false) → isReplyTag t = true →
      extractReplyToAux fallback (l₁ ++ t :: l₂) = some (t.getD 1 "") := by
  induction l₁ with
  | nil =>
    intro fallback t l₂ _ ht
    simp [extractReplyToAux, isETag_of_isReplyTag ht, ht]
  | cons u l₁ ih =>
    intro fallback t l₂ h ht
    have hu : isReplyTag u = false := h u (by simp)
    have hrest : ∀ v ∈ l₁, isReplyTag v = false := fun v hv => h v (by simp [hv])
    by_cases heu : isETag u = true
    · simp only [List.cons_append, extractReplyToAux, heu, if_true, hu,
        Bool.false_eq_true, if_false]
      exact ih _ t l₂ hrest ht
    · simp only [List.cons_append, extractReplyToAux, heu, if_false]
      exact ih _ t l₂ hrest ht

/-- The last element of a non-empty list, as a defaulted last element of its
tail. -/
theorem getLast?_cons_getD {α : Type} (a : α) (l : List α) :
    (a :: l).getLast? = some (l.getLast?.getD a) := by
  induction l generalizing a with
  | nil => rfl
  | cons b l ih =>
    rw [List.getLast?_cons_cons, ih b]
    simp

/-- When no reference tag carries a marker, the loop returns the target of the
last reference tag, falling back to the accumulator when there is none. -/
theorem extractReplyToAux_no_marker (tags : List (List String)) :
    ∀ fallback : Option String,
      (∀ u ∈ tags, isETag u = true → hasMarker u = false) →
      extractReplyToAux fallback tags =
        match (tags.filter isETag).getLast? with
        | some t => some (t.getD 1 "")
        | none => fallback := by
  induction tags with
  | nil => intro fallback _; rfl
  | cons t rest ih =>
    intro fallback h
    have hrest : ∀ u ∈ rest, isETag u = true → hasMarker u = false :=
      fun u hu => h u (by simp [hu])
    by_cases het : isETag t = true
    · have hm : hasMarker t = false := h t (by simp) het
      have hr : isReplyTag t = false := isReplyTag_eq_false_of_no_marker het hm
      rw [extractReplyToAux, if_pos het, if_neg (by simp [hr]),
        ih _ hrest, List.filter_cons_of_pos het, getLast?_cons_getD]
      cases hcase : (rest.filter isETag).getLast? <;> simp
    · have hr : isReplyTag t = false := by
        simp only [isReplyTag, Bool.and_eq_false_iff]
        left; left
        exact Bool.not_eq_true _ |>.mp het
      rw [extractReplyToAux, if_neg het, ih _ hrest, List.filter_cons_of_neg het]

/-- C8: `_extract_reply_to` (event_processor.py lines 250-260) returns the
target of the (first) `"reply"`-marked reference tag when one is present;
when no reference tag carries any marker it returns the target of the last
reference tag; with no reference tags at all it returns no target. -/
theorem c8_extract_reply_to :
    (∀ (l₁ l₂ : List (List String)) (t : List String),
        (∀ u ∈ l₁, isReplyTag u = false) → isReplyTag t = true →
        extractReplyTo (l₁ ++ t :: l₂) = some (t.getD 1 "")) ∧
    (∀ tags : List (List String),
        (∀ u ∈ tags, isETag u = true → hasMarker u = false) →
        extractReplyTo tags = lastETagTarget tags) ∧
    (∀ tags : List (List String),
        (∀ u ∈ tags, isETag u = false) → extractReplyTo tags = none) := by
  refine ⟨fun l₁ l₂ t h ht => extractReplyToAux_reply l₁ none t l₂ h ht, ?_, ?_⟩
  · intro tags h
    rw [extractReplyTo, extractReplyToAux_no_marker tags none h, lastETagTarget]
    cases (tags.filter isETag).getLast? with
    | none => rfl
    | some u => rfl
  · intro tags h
    have hnil : tags.filter isETag = [] :=
      List.filter_eq_nil_iff.mpr (fun u hu => by rw [h u hu]; exact Bool.false_ne_true)
    rw [extractReplyTo,
      extractReplyToAux_no_marker tags none (fun u hu het => by rw [h u hu] at het; cases het),
      hnil]
    rfl

/-- Witness for C8 at the repository's own test input (root marker then reply
marker), an unmarked pair, and a tag list with no reference tag. -/
theorem c8_extract_reply_to_witness :
    extractReplyTo [["e", "event_id_1", "", "root"], ["e", "event_id_2", "", "reply"], ["p", "pubkey"]]
        = some "event_id_2" ∧
    extractReplyTo [["e", "a"], ["e", "b"]] = some "b" ∧
    extractReplyTo [["p", "x"]] = none := by
  refine ⟨?_, ?_, ?_⟩
  · have h := c8_extract_reply_to.1 [["e", "event_id_1", "", "root"]] [["p", "pubkey"]]
      ["e", "event_id_2", "", "reply"] (by decide) (by decide)
    exact h
  · have h := c8_extract_reply_to.2.1 [["e", "a"], ["e", "b"]] (by decide)
    rw [h]
    rfl
  · exact c8_extract_reply_to.2.2 [["p", "x"]] (by decide)

/-! ### C9: sparse profile updates never clear stored fields -/

/-- An absent (`None`) incoming value keeps the stored value. -/
theorem updField_none (old : Option String) : updField old none = old := rfl

/-- A present incoming value overwrites the stored value. -/
theorem updField_some (old : Option String) (v : String) :
    updField old (some v) = some v := rfl

/-- C9: `save_user_profile` on an existing profile (event_loader.py lines
64-69) never clears a stored field: a field whose incoming value is `None`
keeps its previous value, `pubkey` and `first_seen` are never modified,
`last_updated` is set to the update time, and a field changes only to a
non-`None` incoming value. -/
theorem c9_profile_update_frame (existing : UserProfile) (incoming : ProfileUpdate)
    (now : Nat) :
    (updateExistingProfile existing incoming now).pubkey = existing.pubkey ∧
    (updateExistingProfile existing incoming now).first_seen = existing.first_seen ∧
    (updateExistingProfile existing incoming now).last_updated = now ∧
    (incoming.name = none →
      (updateExistingProfile existing incoming now).name = existing.name) ∧
    (∀ v, incoming.name = some v →
      (updateExistingProfile existing incoming now).name = some v) ∧
    (incoming.display_name = none →
      (updateExistingProfile existing incoming now).display_name = existing.display_name) ∧
    (∀ v, incoming.display_name = some v →
      (updateExistingProfile existing incoming now).display_name = some v) ∧
    (incoming.about = none →
      (updateExistingProfile existing incoming now).about = existing.about) ∧
    (∀ v, incoming.about = some v →
      (updateExistingProfile existing incoming now).about = some v) ∧
    (incoming.picture = none →
      (updateExistingProfile existing incoming now).picture = existing.picture) ∧
    (∀ v, incoming.picture = some v →
      (updateExistingProfile existing incoming now).picture = some v) ∧
    (incoming.nip05 = none →
      (updateExistingProfile existing incoming now).nip05 = existing.nip05) ∧
    (∀ v, incoming.nip05 = some v →
      (updateExistingProfile existing incoming now).nip05 = some v) ∧
    (incoming.lud06 = none →
      (updateExistingProfile existing incoming now).lud06 = existing.lud06) ∧
    (∀ v, incoming.lud06 = some v →
      (updateExistingProfile existing incoming now).lud06 = some v) ∧
    (incoming.lud16 = none →
      (updateExistingProfile existing incoming now).lud16 = existing.lud16) ∧
    (∀ v, incoming.lud16 = some v →
      (updateExistingProfile existing incoming now).lud16 = some v) ∧
    (incoming.banner = none →
      (updateExistingProfile existing incoming now).banner = existing.banner) ∧
    (∀ v, incoming.banner = some v →
      (updateExistingProfile existing incoming now).banner = some v) ∧
    (incoming.website = none →
      (updateExistingProfile existing incoming now).website = existing.website) ∧
    (∀ v, incoming.website = some v →
      (updateExistingProfile existing incoming now).website = some v) ∧
    (incoming.raw_metadata = none →
      (updateExistingProfile existing incoming now).raw_metadata = existing.raw_metadata) ∧
    (∀ v, incoming.raw_metadata = some v →
      (updateExistingProfile existing incoming now).raw_metadata = some v) := by
  refine ⟨rfl, rfl, rfl, ?_, ?_, ?_, ?_, ?_, ?_, ?_, ?_, ?_, ?_, ?_, ?_, ?_, ?_,
    ?_, ?_, ?_, ?_, ?_, ?_⟩ <;>
    intros <;> simp_all [updateExistingProfile, updField]

/-- Witness for C9: a sparse update with only `display_name` set leaves the
stored `name` in place, overwrites `display_name`, and keeps the key. -/
theorem c9_profile_update_frame_witness :
    (updateExistingProfile
        { pubkey := "pk", name := some "alice", display_name := none,
          about := none, picture := none, nip05 := none, lud06 := none,
          lud16 := none, banner := none, website := none, raw_metadata := none,
          first_seen := 3, last_updated := 4 }
        { name := none, display_name := some "Alice D", about := none,
          picture := none, nip05 := none, lud06 := none, lud16 := none,
          banner := none, website := none, raw_metadata := none }
        9).name = some "alice" ∧
    (updateExistingProfile
        { pubkey := "pk", name := some "alice", display_name := none,
          about := none, picture := none, nip05 := none, lud06 := none,
          lud16 := none, banner := none, website := none, raw_metadata := none,
          first_seen := 3, last_updated := 4 }
        { name := none, display_name := some "Alice D", about := none,
          picture := none, nip05 := none, lud06 := none, lud16 := none,
          banner := none, website := none, raw_metadata := none }
        9).display_name = some "Alice D" := by
  constructor
  · exact (c9_profile_update_frame _ _ 9).2.2.2.1 rfl
  · exact (c9_profile_update_frame _ _ 9).2.2.2.2.2.2.1 "Alice D" rfl

/-! ### C10: zap statistics on the empty input -/

/-- C10: `calculate_zap_stats []` returns a complete all-zero statistics
record (total, count, mean, median, min, max, p95 all 0), through the same
record type as every non-empty input, and being a total function it never
raises. -/
theorem c10_zap_stats_empty :
    calculate_zap_stats [] =
      { total := 0, count := 0, mean := 0, median := 0, min := 0, max := 0, p95 := 0 } := rfl

/-! ### C2: persistence of zap records -/

/-- C2, counterexample: a zap whose invoice parses to a recovered amount of
ZERO (`lnbc0u1x` → `int(0.0 * 100) = 0`) is not persisted: Python truthiness
of `zap_data["amount_msats"]` (pipeline.py line 240) treats the recovered `0`
the same as the unrecovered `None`, contradicting the claim that a recovered
zero amount is persisted. -/
theorem c2_zero_amount_zap_not_persisted :
    (processZap (fun _ => none) [["bolt11", "lnbc0u1x"]]).amount_msats = some 0 ∧
    zapPersisted (processZap (fun _ => none) [["bolt11", "lnbc0u1x"]]) = false := by
  have h0 : parseBolt11Amount (some "lnbc0u1x")
      = some (pyInt ((digitsVal ['0'] : ℚ) * 100)) := rfl
  have h1 : parseBolt11Amount (some "lnbc0u1x") = some 0 := by
    rw [h0, show digitsVal ['0'] = 0 from rfl]
    norm_num [pyInt]
  have hb : (processZap (fun _ => none) [["bolt11", "lnbc0u1x"]]).amount_msats
      = parseBolt11Amount (some "lnbc0u1x") := rfl
  refine ⟨hb.trans h1, ?_⟩
  show pyTruthyInt (processZap (fun _ => none) [["bolt11", "lnbc0u1x"]]).amount_msats = false
  rw [hb.trans h1]
  rfl

/-- C2, amended: during a batch flush a zap is persisted exactly when
invoice-amount parsing recovered a NONZERO amount — a recovered zero amount
is, like an unknown amount, not persisted — and the unknown amount stays
`None` in the `amount_msats` field of the processed record (the parse result
is stored unchanged), so unknown remains distinguishable from zero there. -/
theorem c2_zap_persist_amended (jsonLoads : String → Option ZapDescription)
    (tags : List (List String)) :
    (zapPersisted (processZap jsonLoads tags) = true ↔
      ∃ a : ℤ, (processZap jsonLoads tags).amount_msats = some a ∧ a ≠ 0) ∧
    (processZap jsonLoads tags).amount_msats
      = parseBolt11Amount (lastTagValue "bolt11" tags) := by
  have hm : (processZap jsonLoads tags).amount_msats
      = parseBolt11Amount (lastTagValue "bolt11" tags) := rfl
  refine ⟨?_, hm⟩
  rw [show zapPersisted (processZap jsonLoads tags)
    = pyTruthyInt (processZap jsonLoads tags).amount_msats from rfl]
  cases h : (processZap jsonLoads tags).amount_msats with
  | none => simp [pyTruthyInt]
  | some a => simp [pyTruthyInt]

/-- Witness for C2: a zap with a parseable nonzero invoice amount is
persisted. -/
theorem c2_zap_persist_amended_witness :
    zapPersisted (processZap (fun _ => none) [["bolt11", "lnbc20u1pjexampledata"]]) = true := by
  refine ((c2_zap_persist_amended (fun _ => none) _).1).mpr ⟨2000, ?_, by decide⟩
  rw [(c2_zap_persist_amended (fun _ => none) [["bolt11", "lnbc20u1pjexampledata"]]).2,
    show lastTagValue "bolt11" [["bolt11", "lnbc20u1pjexampledata"]]
      = some "lnbc20u1pjexampledata" from rfl,
    show parseBolt11Amount (some "lnbc20u1pjexampledata")
      = some (pyInt ((digitsVal ['2', '0'] : ℚ) * 100)) from rfl,
    show digitsVal ['2', '0'] = 20 from rfl]
  norm_num [pyInt]

/-! ### C6: in-batch deduplication -/

/-- No entry with an already-seen id survives the dedup pass. -/
theorem dedupBatchAux_seen {α : Type} (i : String) :
    ∀ (batch : List (Option String × α)) (seen : List String), i ∈ seen →
      ∀ e ∈ dedupBatchAux seen batch, e.1 ≠ some i := by
  intro batch
  induction batch with
  | nil => intro seen _ e he; cases he
  | cons x rest ih =>
    obtain ⟨xid, xp⟩ := x
    intro seen hseen e he
    cases xid with
    | none =>
      simp only [dedupBatchAux] at he
      exact ih seen hseen e he
    | some j =>
      simp only [dedupBatchAux] at he
      by_cases hj : j ≠ "" ∧ j ∉ seen
      · rw [if_pos hj] at he
        rcases List.mem_cons.mp he with rfl | he'
        · simp only [ne_eq, Option.some_inj]
          intro hcontr
          exact hj.2 (hcontr ▸ hseen)
        · exact ih (j :: seen) (List.mem_cons_of_mem j hseen) e he'
      · rw [if_neg hj] at he
        exact ih seen hseen e he

/-- Dedup keeps exactly one entry per (truthy, not-yet-seen) id present in
the batch, and none for an absent id. -/
theorem dedupBatchAux_countP {α : Type} (i : String) (hi : i ≠ "") :
    ∀ (batch : List (Option String × α)) (seen : List String), i ∉ seen →
      (dedupBatchAux seen batch).countP (fun e => decide (e.1 = some i)) =
        if batch.any (fun e => decide (e.1 = some i)) then 1 else 0 := by
  intro batch
  induction batch with
  | nil => intro seen _; rfl
  | cons x rest ih =>
    obtain ⟨xid, xp⟩ := x
    intro seen hseen
    cases xid with
    | none =>
      have h0 : (decide ((none : Option String) = some i)) = false := by simp
      simp only [dedupBatchAux, List.any_cons, h0, Bool.false_or]
      exact ih seen hseen
    | some j =>
      by_cases hji : j = i
      · subst hji
        have hz : (dedupBatchAux (j :: seen) rest).countP
            (fun e => decide (e.1 = some j)) = 0 :=
          List.countP_eq_zero.mpr (fun e he => by
            simp only [decide_eq_true_eq]
            exact dedupBatchAux_seen j rest (j :: seen) (List.mem_cons_self j seen) e he)
        simp only [dedupBatchAux, List.any_cons]
        rw [if_pos ⟨hi, hseen⟩, List.countP_cons, hz]
        simp
      · have hxne : (decide ((some j : Option String) = some i)) = false := by
          simp [hji]
        have hmem : i ∉ j :: seen := by
          intro hmemc
          rcases List.mem_cons.mp hmemc with h | h
          · exact hji h.symm
          · exact hseen h
        simp only [dedupBatchAux, List.any_cons, hxne, Bool.false_or]
        by_cases hj : j ≠ "" ∧ j ∉ seen
        · rw [if_pos hj, List.countP_cons]
          have hxne' : (decide ((((some j), xp) : Option String × α).1 = some i))
              = false := by simp [hji]
          simp only [hxne', Bool.false_eq_true, if_false, add_zero]
          exact ih (j :: seen) hmem
        · rw [if_neg hj]
          exact ih seen hseen

/-- The surviving entry for an id is the first entry of the batch with that
id. -/
theorem dedupBatchAux_first {α : Type} (i : String) (hi : i ≠ "") :
    ∀ (batch : List (Option String × α)) (seen : List String), i ∉ seen →
      ∀ e ∈ dedupBatchAux seen batch, e.1 = some i →
        batch.find? (fun e' => decide (e'.1 = some i)) = some e := by
  intro batch
  induction batch with
  | nil => intro seen _ e he; cases he
  | cons x rest ih =>
    obtain ⟨xid, xp⟩ := x
    intro seen hseen e he hei
    cases xid with
    | none =>
      simp only [dedupBatchAux] at he
      rw [List.find?_cons_of_neg _ (by simp)]
      exact ih seen hseen e he hei
    | some j =>
      simp only [dedupBatchAux] at he
      by_cases hji : j = i
      · subst hji
        rw [if_pos ⟨hi, hseen⟩] at he
        rcases List.mem_cons.mp he with rfl | he'
        · rw [List.find?_cons_of_pos _ (by simp)]
        · exact absurd hei
            (dedupBatchAux_seen j rest (j :: seen) (List.mem_cons_self j seen) e he')
      · rw [List.find?_cons_of_neg _ (by simp [hji])]
        by_cases hj : j ≠ "" ∧ j ∉ seen
        · rw [if_pos hj] at he
          rcases List.mem_cons.mp he with rfl | he'
          · exact absurd (Option.some_inj.mp hei) hji
          · refine ih (j :: seen) ?_ e he' hei
            intro hmemc
            rcases List.mem_cons.mp hmemc with h | h
            · exact hji h.symm
            · exact hseen h
        · rw [if_neg hj] at he
          exact ih seen hseen e he hei

/-- C6: `_process_batch` collapses all batch entries sharing one (truthy)
message id to a single entry before the persistence loop — exactly one entry
with that id survives when the batch contains at least one, zero otherwise —
and the survivor is the first-seen entry for that id in batch order.  The
flush loop therefore makes exactly one persistence attempt for that id. -/
theorem c6_batch_dedup {α : Type} (batch : List (Option String × α)) (i : String)
    (hi : i ≠ "") :
    ((dedupBatch batch).countP (fun e => decide (e.1 = some i)) =
      if batch.any (fun e => decide (e.1 = some i)) then 1 else 0) ∧
    (∀ e ∈ dedupBatch batch, e.1 = some i →
      batch.find? (fun e' => decide (e'.1 = some i)) = some e) :=
  ⟨dedupBatchAux_countP i hi batch [] (by simp),
   dedupBatchAux_first i hi batch [] (by simp)⟩

/-- Witness for C6: two entries with the same id `"a"` in one batch yield
exactly one surviving entry, the first one. -/
theorem c6_batch_dedup_witness :
    (dedupBatch [(some "a", (1 : ℕ)), (some "a", 2)]).countP
        (fun e => decide (e.1 = some "a")) = 1 ∧
    dedupBatch [(some "a", (1 : ℕ)), (some "a", 2)] = [(some "a", 1)] := by
  constructor
  · rw [(c6_batch_dedup [(some "a", (1 : ℕ)), (some "a", 2)] "a" (by decide)).1]
    rfl
  · rfl

/-! ### C5: the aggregation run is transactional -/

/-- C5: if any of the three passes raises, `run_aggregation` leaves the
committed rows exactly as they were before the run, clears all staged writes
(rollback), and re-raises the exception; the commit happens only when all
three passes returned, in which case exactly the writes they staged become
durable. -/
theorem c5_aggregation_transactional {E W : Type} (p1 p2 p3 : AggPass E W)
    (h1 : StagesOnly p1) (h2 : StagesOnly p2) (h3 : StagesOnly p3)
    (s0 : DbSession W) :
    (∀ (e : E) (s' : DbSession W), runAggregation p1 p2 p3 s0 = (s', some e) →
      s'.committed = s0.committed ∧ s'.pending = []) ∧
    (∀ s' : DbSession W, runAggregation p1 p2 p3 s0 = (s', none) →
      ∃ s1 s2 s3, p1 s0 = Except.ok s1 ∧ p2 s1 = Except.ok s2 ∧
        p3 s2 = Except.ok s3 ∧ s' = commitSession s3) := by
  constructor
  · intro e s' hrun
    rw [runAggregation] at hrun
    cases hp1 : p1 s0 with
    | error es =>
      obtain ⟨e1, sE⟩ := es
      simp only [hp1] at hrun
      injection hrun with hs he
      refine ⟨?_, by rw [← hs]; rfl⟩
      rw [← hs]
      exact h1.2 s0 e1 sE hp1
    | ok s1 =>
      simp only [hp1] at hrun
      have hc1 : s1.committed = s0.committed := h1.1 s0 s1 hp1
      cases hp2 : p2 s1 with
      | error es =>
        obtain ⟨e2, sE⟩ := es
        simp only [hp2] at hrun
        injection hrun with hs he
        refine ⟨?_, by rw [← hs]; rfl⟩
        rw [← hs]
        show sE.committed = s0.committed
        rw [h2.2 s1 e2 sE hp2, hc1]
      | ok s2 =>
        simp only [hp2] at hrun
        have hc2 : s2.committed = s0.committed := by
          rw [h2.1 s1 s2 hp2, hc1]
        cases hp3 : p3 s2 with
        | error es =>
          obtain ⟨e3, sE⟩ := es
          simp only [hp3] at hrun
          injection hrun with hs he
          refine ⟨?_, by rw [← hs]; rfl⟩
          rw [← hs]
          show sE.committed = s0.committed
          rw [h3.2 s2 e3 sE hp3, hc2]
        | ok s3 =>
          simp only [hp3] at hrun
          injection hrun with hs he
          cases he
  · intro s' hrun
    rw [runAggregation] at hrun
    cases hp1 : p1 s0 with
    | error es =>
      obtain ⟨e1, sE⟩ := es
      simp only [hp1] at hrun
      injection hrun with hs he
      cases he
    | ok s1 =>
      simp only [hp1] at hrun
      cases hp2 : p2 s1 with
      | error es =>
        obtain ⟨e2, sE⟩ := es
        simp only [hp2] at hrun
        injection hrun with hs he
        cases he
      | ok s2 =>
        simp only [hp2] at hrun
        cases hp3 : p3 s2 with
        | error es =>
          obtain ⟨e3, sE⟩ := es
          simp only [hp3] at hrun
          injection hrun with hs he
          cases he
        | ok s3 =>
          simp only [hp3] at hrun
          injection hrun with hs he
          exact ⟨s1, s2, s3, rfl, hp2, hp3, hs.symm⟩

/-- `passStageOne` never commits. -/
theorem stagesOnly_passStageOne : StagesOnly passStageOne :=
  ⟨fun s s' h => by cases h; rfl, fun s e s' h => by simp [passStageOne] at h⟩

/-- `passRaise` never commits. -/
theorem stagesOnly_passRaise : StagesOnly passRaise :=
  ⟨fun s s' h => by simp [passRaise] at h,
   fun s e s' h => by
    simp only [passRaise, Except.error.injEq, Prod.mk.injEq] at h
    rw [← h.2]⟩

/-- `passNoop` never commits. -/
theorem stagesOnly_passNoop : StagesOnly passNoop :=
  ⟨fun s s' h => by cases h; rfl, fun s e s' h => by simp [passNoop] at h⟩

/-- Witness for C5: with a second pass that raises after the first staged a
write, the run ends with the original committed rows, no staged writes, and
the exception re-raised. -/
theorem c5_aggregation_transactional_witness :
    (runAggregation passStageOne passRaise passNoop ⟨[0], []⟩).1.committed
        = (⟨[0], []⟩ : DbSession ℕ).committed ∧
    (runAggregation passStageOne passRaise passNoop ⟨[0], []⟩).1.pending = [] :=
  (c5_aggregation_transactional passStageOne passRaise passNoop
    stagesOnly_passStageOne stagesOnly_passRaise stagesOnly_passNoop ⟨[0], []⟩).1
    () (runAggregation passStageOne passRaise passNoop ⟨[0], []⟩).1 rfl

/-! ### C4: virality score and time decay -/

/-- Two-decimal rounding is monotone. -/
theorem round2_mono {x y : ℝ} (h : x ≤ y) : round2 x ≤ round2 y := by
  simp only [round2]
  have hr : round (x * 100) ≤ round (y * 100) := by
    rw [round_eq, round_eq]
    exact Int.floor_mono (by linarith)
  have hc : ((round (x * 100) : ℤ) : ℝ) ≤ ((round (y * 100) : ℤ) : ℝ) := by
    exact_mod_cast hr
  linarith

/-- C4, counterexample: with all engagement inputs zero the score is 0 at
every age, so the claimed strict decrease in `age_hours` (and the claimed
strict inequality between ages 1 and 24) fails for that fixed engagement
tuple. -/
theorem c4_virality_not_strictly_decreasing :
    calculate_virality_score 0 0 0 0 0 1 = calculate_virality_score 0 0 0 0 0 24 ∧
    ¬ (calculate_virality_score 0 0 0 0 0 24 < calculate_virality_score 0 0 0 0 0 1) := by
  have hE : engagementScore 0 0 0 0 0 = 0 := by norm_num [engagementScore]
  have h1 : ∀ a : ℝ, calculate_virality_score 0 0 0 0 0 a = 0 := by
    intro a
    simp only [calculate_virality_score, hE, zero_mul]
    simp [round2]
  rw [h1 1, h1 24]
  exact ⟨rfl, lt_irrefl 0⟩

/-- C4, amended: for every engagement tuple with a POSITIVE weighted
engagement score, the pre-rounding score is strictly decreasing in
`age_hours` over `age_hours > 0` (so in particular strictly smaller at 24
hours than at 1 hour), the returned two-decimal-rounded score is
monotonically non-increasing there, and `age_hours ≤ 0` is treated as no
decay (factor 1.0).  With a zero engagement score the returned score is
constantly 0. -/
theorem c4_virality_decay_amended (z zt r rp rc a b : ℝ)
    (hE : 0 < engagementScore z zt r rp rc) (ha : 0 < a) (hab : a < b) :
    engagementScore z zt r rp rc * timeDecay b
        < engagementScore z zt r rp rc * timeDecay a ∧
    calculate_virality_score z zt r rp rc b ≤ calculate_virality_score z zt r rp rc a ∧
    (∀ c : ℝ, c ≤ 0 → timeDecay c = 1) := by
  have hb : 0 < b := ha.trans hab
  have hdec : timeDecay b < timeDecay a := by
    simp only [timeDecay, if_pos ha, if_pos hb]
    exact Real.exp_lt_exp.mpr (by linarith)
  have hmul : engagementScore z zt r rp rc * timeDecay b
      < engagementScore z zt r rp rc * timeDecay a :=
    mul_lt_mul_of_pos_left hdec hE
  refine ⟨hmul, ?_, ?_⟩
  · simp only [calculate_virality_score]
    exact round2_mono hmul.le
  · intro c hc
    simp [timeDecay, not_lt.mpr hc]

/-- Witness for C4 at one zap and ages 1 and 24. -/
theorem c4_virality_decay_amended_witness :
    0 < engagementScore 1 0 0 0 0 ∧ (0 : ℝ) < 1 ∧ (1 : ℝ) < 24 ∧
    (engagementScore 1 0 0 0 0 * timeDecay 24 < engagementScore 1 0 0 0 0 * timeDecay 1 ∧
     calculate_virality_score 1 0 0 0 0 24 ≤ calculate_virality_score 1 0 0 0 0 1 ∧
     (∀ c : ℝ, c ≤ 0 → timeDecay c = 1)) := by
  have hE : 0 < engagementScore 1 0 0 0 0 := by norm_num [engagementScore]
  exact ⟨hE, by norm_num, by norm_num,
    c4_virality_decay_amended 1 0 0 0 0 1 24 hE (by norm_num) (by norm_num)⟩

/-! ### C7: trend score and the window-hours guard -/

/-- C7, counterexample: at `window_hours = -1` the code divides by the
negative window (the guard only replaces `window_hours == 0`), giving
`round2 (-log 2) = -0.69`, while the claimed formula (every
`window_hours ≤ 0` replaced by 1) gives `round2 (log 2) = 0.69`. -/
theorem c7_trend_score_counterexample :
    calculate_trend_score 1 1 0 (-1) ≠ trendScoreSpecC7 1 1 0 (-1) := by
  have hcode : calculate_trend_score 1 1 0 (-1) = round2 (-Real.log 2) := by
    simp only [calculate_trend_score]
    norm_num [Real.log_one]
  have hspec : trendScoreSpecC7 1 1 0 (-1) = round2 (Real.log 2) := by
    simp only [trendScoreSpecC7]
    norm_num [Real.log_one]
  have hl1 : (0.6931471803 : ℝ) < Real.log 2 := Real.log_two_gt_d9
  have hl2 : Real.log 2 < 0.6931471808 := Real.log_two_lt_d9
  have h1 : round (-Real.log 2 * 100) = -69 := by
    rw [round_eq]
    rw [Int.floor_eq_iff]
    constructor
    · push_cast
      linarith
    · push_cast
      linarith
  have h2 : round (Real.log 2 * 100) = 69 := by
    rw [round_eq]
    rw [Int.floor_eq_iff]
    constructor
    · push_cast
      linarith
    · push_cast
      linarith
  rw [hcode, hspec]
  simp only [round2, h1, h2]
  norm_num

/-- C7, amended: `calculate_trend_score` equals
`round2 ((mention_count / window_hours) * ln(1+unique_authors) *
(1 + ln(1+total_zaps)))` for every nonzero `window_hours` — including
negative ones, which are used as-is — and only `window_hours = 0` is
replaced by 1 before dividing. -/
theorem c7_trend_score_amended (m u z w : ℤ) (hw : w ≠ 0) :
    calculate_trend_score m u z w
        = round2 ((m : ℝ) / (w : ℝ) * Real.log (1 + (u : ℝ))
            * (1 + Real.log (1 + (z : ℝ)))) ∧
    calculate_trend_score m u z 0
        = round2 ((m : ℝ) * Real.log (1 + (u : ℝ))
            * (1 + Real.log (1 + (z : ℝ)))) := by
  constructor
  · simp only [calculate_trend_score, if_neg hw]
  · simp only [calculate_trend_score, if_pos rfl]
    norm_num

/-- Witness for C7 at `window_hours = 24` (and the zero-window branch). -/
theorem c7_trend_score_amended_witness :
    calculate_trend_score 3 1 0 24
        = round2 (((3 : ℤ) : ℝ) / ((24 : ℤ) : ℝ) * Real.log (1 + ((1 : ℤ) : ℝ))
            * (1 + Real.log (1 + ((0 : ℤ) : ℝ)))) ∧
    calculate_trend_score 3 1 0 0
        = round2 (((3 : ℤ) : ℝ) * Real.log (1 + ((1 : ℤ) : ℝ))
            * (1 + Real.log (1 + ((0 : ℤ) : ℝ)))) :=
  c7_trend_score_amended 3 1 0 24 (by decide)

end NostrPipeline
